import Mathlib

/-!
Verification development for the predicted-appchain state-transition core.

The Go sources are shallowly embedded:
* the MDBX ledger transaction (`kv.RwTx`, scoped to the single
  `AccountsBucket` the application uses) becomes `Appchain.RwTx`, a map from
  string keys to stored values together with injectable per-key read/write
  faults (the storage layer may fail on any operation);
* stored byte strings are the canonical big-endian `uint256.Bytes()`
  encodings that every write of the application produces, so a value is
  represented by the natural number it encodes; the empty byte string (the
  encoding of zero, and also what an absent key yields) is the `len == 0`
  case the code tests for;
* `uint256` arithmetic is `Nat` arithmetic modulo `2 ^ 256`;
* Go panics (e.g. `Transaction.Hash` on malformed hex) are modelled by an
  `Option` result, `none` standing for the aborted computation.
-/

namespace Appchain

/-- Wrap-around modulus of the `holiman/uint256` 256-bit integers. -/
def U256MOD : Nat := 2 ^ 256

/-- `uint256.Int.SetBytes` applied to the data a `GetOne` returned: an absent
key (`nil` slice) or the canonical encoding of a number both decode to the
number, reduced into 256 bits (`SetBytes` keeps the trailing 32 bytes, which
for a canonical encoding is the value mod `2 ^ 256`). -/
def setBytesOpt (d : Option Nat) : Nat := d.getD 0 % U256MOD

/-- `len(data) == 0` for the bytes a `GetOne` returned: true for an absent key
and for the canonical (empty) encoding of zero. -/
def bytesEmpty (d : Option Nat) : Bool := d.getD 0 == 0

/-- The ledger store transaction (`kv.RwTx`) restricted to `AccountsBucket`:
current entries plus injectable storage faults for reads and writes. -/
structure RwTx where
  data : String → Option Nat
  getErr : String → Option String
  putErr : String → Option String

/-- `dbTx.GetOne(AccountsBucket, key)`: either a storage error or the stored
value (`none` models the `nil` slice of an absent key). -/
def getOne (st : RwTx) (k : String) : Except String (Option Nat) :=
  match st.getErr k with
  | some e => .error e
  | none => .ok (st.data k)

/-- `dbTx.Put(AccountsBucket, key, value)`: either a storage error (leaving
the entries unchanged) or the updated store. -/
def put (st : RwTx) (k : String) (v : Nat) : Except String RwTx :=
  match st.putErr k with
  | some e => .error e
  | none => .ok { st with data := fun k2 => if k2 = k then some v else st.data k2 }

/-- `AccountKey(sender, token)` from part_007: the byte concatenation
`token + sender`, with no separator. -/
def AccountKey (sender : String) (token : String) : String := token ++ sender

/-- `ErrNotEnoughBalance` from buckets.go. -/
def ErrNotEnoughBalance : String := "sender's balance not enough"

/-- The transfer transaction of part_007 (`Transaction[R]`): `Value` is a
`uint64` in Go, so theorems may assume `Value < 2 ^ 64`. -/
structure Tx where
  Sender : String
  Value : Nat
  Receiver : String
  Token : String
  TxHash : String
deriving DecidableEq

/-- The numeric value of one hexadecimal digit, as `encoding/hex` accepts
them (`0-9`, `a-f`, `A-F`). -/
def hexDigitVal (c : Char) : Option Nat :=
  if '0' ≤ c ∧ c ≤ '9' then some (c.toNat - '0'.toNat)
  else if 'a' ≤ c ∧ c ≤ 'f' then some (c.toNat - 'a'.toNat + 10)
  else if 'A' ≤ c ∧ c ≤ 'F' then some (c.toNat - 'A'.toNat + 10)
  else none

/-- `hex.DecodeString`: two hex digits per byte; `none` on an odd-length
input or any non-hexadecimal character (Go returns an error there). -/
def hexDecode : List Char → Option (List Nat)
  | [] => some []
  | [_] => none
  | c1 :: c2 :: rest =>
    match hexDigitVal c1, hexDigitVal c2, hexDecode rest with
    | some hi, some lo, some bs => some ((16 * hi + lo) :: bs)
    | _, _, _ => none

/-- The success domain of `hex.DecodeString`: even length, all hex digits. -/
def validHex (cs : List Char) : Bool :=
  cs.length % 2 == 0 && cs.all fun c => (hexDigitVal c).isSome

/-- `strings.TrimPrefix(s, "0x")`: drop one leading `0x` if present. -/
def trimPrefix0x : List Char → List Char
  | '0' :: 'x' :: rest => rest
  | s => s

/-- `Transaction.Hash` from part_007, with the panic on malformed hex
modelled as `none`: strip an optional `0x`, hex-decode, and copy into a
32-byte zero array (`copy(h[:], hashBytes)` keeps at most 32 bytes and
zero-pads short input). -/
def txHashBytes (e : Tx) : Option (List Nat) :=
  (hexDecode (trimPrefix0x e.TxHash.data)).map fun bs =>
    (bs ++ List.replicate 32 0).take 32

/-- `apptypes.TxReceiptStatus` values used by the application. -/
inductive TxReceiptStatus where
  | Confirmed : TxReceiptStatus
  | Failed : TxReceiptStatus
deriving DecidableEq

/-- The `Receipt` of part_003/receipt.go: balances are `nil` (`none`) on a
failed receipt and set on a confirmed one. -/
structure Receipt where
  TxnHash : List Nat
  ErrorMessage : String
  TxStatus : TxReceiptStatus
  Sender : String
  SenderBalance : Option Nat
  Receiver : String
  ReceiverBalance : Option Nat
  Token : String
  Value : Nat
deriving DecidableEq

/-- `apptypes.ExternalTransaction`: destination chain id and opaque payload
bytes. -/
structure ExternalTransaction where
  ChainID : Nat
  Tx : List Nat
deriving DecidableEq

/-- `Transaction.failedReceipt`: hash, addresses, token and value are copied
from the transaction, the error text is attached, balances stay `nil`. -/
def failedReceipt (e : Tx) (h : List Nat) (msg : String) : Receipt :=
  { TxnHash := h
    ErrorMessage := msg
    TxStatus := .Failed
    Sender := e.Sender
    SenderBalance := none
    Receiver := e.Receiver
    ReceiverBalance := none
    Token := e.Token
    Value := e.Value }

/-- `Transaction.successReceipt`: confirmed status with both post-balances. -/
def successReceipt (e : Tx) (h : List Nat) (senderBalance receiverBalance : Nat) : Receipt :=
  { TxnHash := h
    ErrorMessage := ""
    TxStatus := .Confirmed
    Sender := e.Sender
    SenderBalance := some senderBalance
    Receiver := e.Receiver
    ReceiverBalance := some receiverBalance
    Token := e.Token
    Value := e.Value }

/-- What one `Transaction.Process` call returns: the receipt, the outbound
cross-chain transactions, the fatal-error return value (the Go `err`), and
the ledger transaction as the call leaves it. -/
structure ProcResult where
  receipt : Receipt
  extTxs : List ExternalTransaction
  fatalErr : Option String
  store : RwTx

/-- `Transaction.Process` from part_007, line by line: read the sender entry
(storage error → failed receipt), treat empty data as not enough balance,
compare against `Value`, read the receiver entry, add/subtract with uint256
wrap-around, write sender then receiver, and build the receipt.  Every
receipt construction calls `Transaction.Hash`, whose panic on malformed hex
makes the whole call `none`.  The Go `err` result is `nil` at every return
site, recorded here as `fatalErr := none`. -/
def Process (e : Tx) (st : RwTx) : Option ProcResult :=
  let senderTokenKey := AccountKey e.Sender e.Token
  match getOne st senderTokenKey with
  | .error msg => (txHashBytes e).map fun h => ⟨failedReceipt e h msg, [], none, st⟩
  | .ok senderBalanceData =>
    if bytesEmpty senderBalanceData then
      (txHashBytes e).map fun h => ⟨failedReceipt e h ErrNotEnoughBalance, [], none, st⟩
    else
      let senderBalance := setBytesOpt senderBalanceData
      if senderBalance < e.Value then
        (txHashBytes e).map fun h => ⟨failedReceipt e h ErrNotEnoughBalance, [], none, st⟩
      else
        let receiverTokenKey := AccountKey e.Receiver e.Token
        match getOne st receiverTokenKey with
        | .error msg => (txHashBytes e).map fun h => ⟨failedReceipt e h msg, [], none, st⟩
        | .ok receiverBalanceData =>
          let receiverBalance := setBytesOpt receiverBalanceData
          let amount := e.Value
          let receiverBalance2 := (receiverBalance + amount) % U256MOD
          let senderBalance2 := (senderBalance + (U256MOD - amount % U256MOD)) % U256MOD
          match put st senderTokenKey senderBalance2 with
          | .error msg => (txHashBytes e).map fun h => ⟨failedReceipt e h msg, [], none, st⟩
          | .ok st1 =>
            match put st1 receiverTokenKey receiverBalance2 with
            | .error msg => (txHashBytes e).map fun h => ⟨failedReceipt e h msg, [], none, st1⟩
            | .ok st2 =>
              (txHashBytes e).map fun h =>
                ⟨successReceipt e h senderBalance2 receiverBalance2, [], none, st2⟩

/-! ### External event ingestion (state_transition.go)

The go-ethereum library pieces are modelled at their interface:
* an `Address` is its 20 raw bytes (`List Nat`);
* a topic is the `Hex()` string of its 32-byte hash, which is how the code
  compares topic 0 against the two signature constants;
* `common.HexToAddress(Topics[1].Hex())` is a library normalization of the
  indexed user topic; the log model carries its two used views (`userHex`,
  the `.Hex()` string used for the account key, and `userBytes`, the 20
  bytes used for the mint payload) as inputs;
* `abi.UnpackIntoInterface` on the log's opaque payload bytes is a library
  decoder; the log model carries its outcome for each of the two event
  shapes (`none` models a decode error).
-/

/-- `ExampleContractAddress` from state_transition.go. -/
def ExampleContractAddress : String := "0x102a91394927a2b44020f72cF96162142c242DA4"

/-- `DepositEventSignature` from state_transition.go. -/
def DepositEventSignature : String :=
  "0x2d4b597935f3cd67fb2eebf1db4debc934cee5c7baa7153f980fdbeb2e74084e"

/-- `SwapEventSignature` from state_transition.go. -/
def SwapEventSignature : String :=
  "0x363ba239c72b81c4726aba8829ad4df22628bf7d09efc5f7a18063a53ec1c4ba"

/-- `gosdk.EthereumSepoliaChainID`, the SDK constant for the fixed
destination chain (the Sepolia network id). -/
def EthereumSepoliaChainID : Nat := 11155111

/-- The bytes of a string (`[]byte(s)`); token symbols and addresses in this
application are ASCII, where code points and UTF-8 bytes agree. -/
def strBytes (s : String) : List Nat := s.data.map Char.toNat

/-- Minimal big-endian byte encoding, structurally recursive on a fuel bound
(`n` itself bounds the digit count); `[]` for zero, as `big.Int.Bytes` and
`uint256.Int.Bytes` produce. -/
def natToBytesBEAux : Nat → Nat → List Nat
  | 0, _ => []
  | f + 1, n => if n = 0 then [] else natToBytesBEAux f (n / 256) ++ [n % 256]

/-- `big.Int.Bytes` of a non-negative integer: minimal big-endian bytes. -/
def natToBytesBE (n : Nat) : List Nat := natToBytesBEAux n n

/-- Big-endian value of a byte list (to read an amount back out of a
payload). -/
def bytesToNat (bs : List Nat) : Nat := bs.foldl (fun a b => a * 256 + b) 0

/-- `common.HexToAddress`: decode the hex string and keep the last 20 bytes,
left-padded with zeros.  (The library tolerates malformed input; the only
use here is the valid constant `ExampleContractAddress`.) -/
def hexToAddressBytes (s : String) : List Nat :=
  match hexDecode (trimPrefix0x s.data) with
  | some bs => List.replicate (20 - bs.length) 0 ++ bs.drop (bs.length - 20)
  | none => List.replicate 20 0

/-- `common.HexToAddress(ExampleContractAddress)`, the monitored contract. -/
def exampleContractAddrBytes : List Nat := hexToAddressBytes ExampleContractAddress

/-- The `exchangeRates` table of `calculateSwapOutput`, each rate as an
exact fraction (numerator, denominator).  The Go table holds `float64`
constants; `4200.0` and `60000.0` are exactly representable and the
big.Float products the claims evaluate are exact, so the fraction model
agrees with the source on them.  The two reciprocal entries are the
mathematical reciprocals, which the `float64` constants only approximate;
no claim evaluates those pairs. -/
def exchangeRates (pair : String) : Option (Int × Int) :=
  if pair = "ETH:USDT" then some (4200, 1)
  else if pair = "USDT:ETH" then some (1, 4200)
  else if pair = "BTC:USDT" then some (60000, 1)
  else if pair = "USDT:BTC" then some (1, 60000)
  else none

/-- `calculateSwapOutput` from state_transition.go: look up the pair
`tokenIn:tokenOut`; default to the input amount (1:1) when absent; else
multiply by the rate and truncate toward zero (`big.Float.Int` truncates,
and `Int.tdiv` is exactly the truncation of the exact quotient). -/
def calculateSwapOutput (tokenIn tokenOut : String) (amountIn : Int) : Int :=
  match exchangeRates (tokenIn ++ ":" ++ tokenOut) with
  | none => amountIn
  | some rate => Int.tdiv (amountIn * rate.1) rate.2

/-- `createTokenMintPayload` from state_transition.go:
`[recipient:20][amount:32 big-endian][token]`.  The 20-byte region receives
`copy(payload[0:20], recipient.Bytes())` (an `Address.Bytes()` is always 20
bytes; the model pads/truncates to stay total), the amount is written
right-aligned into bytes 20..52, the token bytes follow.  When the amount
needs more than 32 bytes the Go slice bound `52-len` is negative and the
program panics: `none`. -/
def createTokenMintPayload (recipient : List Nat) (amount : Int) (token : String) :
    Option (List Nat) :=
  let amountBytes := natToBytesBE amount.natAbs
  if amountBytes.length ≤ 32 then
    some ((recipient ++ List.replicate 20 0).take 20 ++
      (List.replicate (32 - amountBytes.length) 0 ++ amountBytes) ++ strBytes token)
  else none

/-- One external-chain log (`types.Log`) together with the library-computed
views the ingestion code derives from it (see the section comment). -/
structure EthLog where
  address : List Nat
  topics : List String
  userHex : String
  userBytes : List Nat
  depositDecode : Option (String × Nat)
  swapDecode : Option (String × String × Nat)

/-- One iteration of the log loop of `processReceipt`: skip logs not from
the monitored contract or with fewer than two topics; on the deposit
signature decode, check `uint256.FromBig` overflow, read the current
balance, add with uint256 wrap-around, and write back, each failure logged
and skipped (`continue`); on the swap signature compute the output amount
and emit one outbound transaction to the fixed destination chain; any other
signature is skipped.  `none` models the payload-construction panic. -/
def processLog (st : RwTx) (l : EthLog) : Option (RwTx × List ExternalTransaction) :=
  if l.address = exampleContractAddrBytes ∧ 2 ≤ l.topics.length then
    if l.topics.headD "" = DepositEventSignature then
      match l.depositDecode with
      | none => some (st, [])
      | some (token, amount) =>
        if U256MOD ≤ amount then some (st, [])
        else
          let accountKey := AccountKey l.userHex token
          match getOne st accountKey with
          | .error _ => some (st, [])
          | .ok currentBalanceData =>
            let currentBalance := setBytesOpt currentBalanceData
            let newBalance := (currentBalance + amount) % U256MOD
            match put st accountKey newBalance with
            | .error _ => some (st, [])
            | .ok st2 => some (st2, [])
    else if l.topics.headD "" = SwapEventSignature then
      match l.swapDecode with
      | none => some (st, [])
      | some (tokenIn, tokenOut, amountIn) =>
        let amountOut := calculateSwapOutput tokenIn tokenOut (amountIn : Int)
        match createTokenMintPayload l.userBytes amountOut tokenOut with
        | none => none
        | some payload => some (st, [⟨EthereumSepoliaChainID, payload⟩])
    else some (st, [])
  else some (st, [])

/-- A `types.Receipt` as the ingestion uses it: its list of logs. -/
structure EthReceipt where
  Logs : List EthLog

/-- The log loop of `processReceipt`: thread the store, append the emitted
outbound transactions. -/
def processLogList (st : RwTx) : List EthLog → Option (RwTx × List ExternalTransaction)
  | [] => some (st, [])
  | l :: rest =>
    match processLog st l with
    | none => none
    | some (st1, txs1) =>
      match processLogList st1 rest with
      | none => none
      | some (st2, txs2) => some (st2, txs1 ++ txs2)

/-- The receipt loop of `ProcessBlock`. -/
def processReceiptList (st : RwTx) : List EthReceipt → Option (RwTx × List ExternalTransaction)
  | [] => some (st, [])
  | r :: rest =>
    match processLogList st r.Logs with
    | none => none
    | some (st1, txs1) =>
      match processReceiptList st1 rest with
      | none => none
      | some (st2, txs2) => some (st2, txs1 ++ txs2)

/-- `StateTransition.ProcessBlock` from state_transition.go, with the
multichain-access fetches (`EthBlock`, `EthReceipts`) supplied as inputs: a
fetch error is returned (propagated) as the block's error; otherwise, since
`ExampleContractAddress` is non-empty, every receipt's logs are processed
and the collected outbound transactions returned with a `nil` error.  The
outer `Option` models a panic inside log processing. -/
def ProcessBlock (ethBlock : Except String Unit) (ethReceipts : Except String (List EthReceipt))
    (st : RwTx) : Option (Except String (List ExternalTransaction × RwTx)) :=
  match ethBlock with
  | .error e => some (.error e)
  | .ok _ =>
    match ethReceipts with
    | .error e => some (.error e)
    | .ok receipts =>
      if ExampleContractAddress = "" then some (.ok ([], st))
      else
        match processReceiptList st receipts with
        | none => none
        | some (st2, txs) => some (.ok (txs, st2))

/-! ### Concrete inputs used by witnesses and counterexamples -/

/-- A store with no entries and no injected faults. -/
def emptySt : RwTx := { data := fun _ => none, getErr := fun _ => none, putErr := fun _ => none }

/-- A self-transfer: alice sends herself 1 USDT (hash `aa`). -/
def selfTx : Tx := { Sender := "alice", Value := 1, Receiver := "alice", Token := "USDT", TxHash := "aa" }

/-- A ledger holding 5 at alice's USDT key and nothing else, fault-free. -/
def selfSt : RwTx :=
  { data := fun k => if k = "USDTalice" then some 5 else none
    getErr := fun _ => none
    putErr := fun _ => none }

/-- A transfer whose `TxHash` is not valid hexadecimal. -/
def badHashTx : Tx := { Sender := "alice", Value := 0, Receiver := "bob", Token := "USDT", TxHash := "zz" }

/-- A zero-value transfer from alice to bob (hash `aa`). -/
def zeroTx : Tx := { Sender := "alice", Value := 0, Receiver := "bob", Token := "USDT", TxHash := "aa" }

/-- A ledger whose alice/USDT entry exists with balance zero (the stored
byte string is the canonical empty encoding of zero). -/
def zeroSt : RwTx :=
  { data := fun k => if k = "USDTalice" then some 0 else none
    getErr := fun _ => none
    putErr := fun _ => none }

/-- An ordinary funded transfer: alice sends bob 3 USDT. -/
def plainTx : Tx := { Sender := "alice", Value := 3, Receiver := "bob", Token := "USDT", TxHash := "aa" }

/-- The `.Hex()` form of the user address in the example logs. -/
def depUserHex : String := "0x00000000000000000000000000000000000000AA"

/-- A deposit log from the monitored contract: 500 USDT for `depUserHex`. -/
def depLog : EthLog :=
  { address := exampleContractAddrBytes
    topics := [DepositEventSignature,
      "0x00000000000000000000000000000000000000000000000000000000000000aa"]
    userHex := depUserHex
    userBytes := List.replicate 19 0 ++ [170]
    depositDecode := some ("USDT", 500)
    swapDecode := none }

/-- The deposit log with amount 1 instead. -/
def depLog1 : EthLog :=
  { depLog with depositDecode := some ("USDT", 1) }

/-- A swap log from the monitored contract: `ETH` to `USDT`, amount 2. -/
def swapLog : EthLog :=
  { address := exampleContractAddrBytes
    topics := [SwapEventSignature,
      "0x00000000000000000000000000000000000000000000000000000000000000aa"]
    userHex := depUserHex
    userBytes := List.replicate 19 0 ++ [170]
    depositDecode := none
    swapDecode := some ("ETH", "USDT", 2) }

/-- A store that fails every read of the deposit log's account key. -/
def errSt : RwTx :=
  { data := fun _ => none
    getErr := fun k => if k = AccountKey depUserHex "USDT" then some "disk read failure" else none
    putErr := fun _ => none }

/-- A store whose balance at the deposit log's account key is the largest
256-bit value. -/
def maxSt : RwTx :=
  { data := fun k => if k = AccountKey depUserHex "USDT" then some (U256MOD - 1) else none
    getErr := fun _ => none
    putErr := fun _ => none }

/-! ### Helper lemmas -/

/-- `AccountKey` with one token is injective in the address (the keys of a
transfer's sender and receiver differ when the addresses do). -/
theorem accountKey_inj {s r t : String} (h : AccountKey s t = AccountKey r t) : s = r := by
  have hd := congrArg String.data h
  simp only [AccountKey, String.data_append] at hd
  exact String.ext (List.append_cancel_left hd)

/-- A fault-free read returns the stored data. -/
theorem getOne_ok {st : RwTx} {k : String} (h : st.getErr k = none) :
    getOne st k = .ok (st.data k) := by
  simp [getOne, h]

/-- A fault-free write returns the updated store. -/
theorem put_ok {st : RwTx} {k : String} (v : Nat) (h : st.putErr k = none) :
    put st k v = .ok { st with data := fun k2 => if k2 = k then some v else st.data k2 } := by
  simp [put, h]

/-- `hex.DecodeString` fails on every string outside its success domain. -/
theorem hexDecode_eq_none : ∀ {cs : List Char}, validHex cs = false → hexDecode cs = none
  | [], h => by simp [validHex] at h
  | [_], _ => rfl
  | c1 :: c2 :: rest, h => by
    rcases hv1 : hexDigitVal c1 with _ | hi
    · simp [hexDecode, hv1]
    rcases hv2 : hexDigitVal c2 with _ | lo
    · simp [hexDecode, hv1, hv2]
    have hrest : validHex rest = false := by
      simp only [validHex, List.length_cons, List.all_cons, hv1, hv2, Option.isSome_some,
        Bool.true_and] at h ⊢
      rwa [show rest.length + 1 + 1 = rest.length + 2 from rfl, Nat.add_mod_right] at h
    simp [hexDecode, hv1, hv2, hexDecode_eq_none hrest]

/-! ### Claim theorems -/

/-- C1: the claim says a self-transfer with sufficient balance yields a
`Confirmed` receipt and leaves the stored balance unchanged.  Evaluating
`Process` at the failing input (alice sends herself 1 USDT from a balance
of 5) shows the receipt is indeed `Confirmed` but the stored balance ends
at 6: the receiver write (old balance + value, read before any write)
lands on the same key after the sender write and overwrites it, crediting
the account. -/
theorem C1_self_transfer_code_bug :
    selfTx.Sender = selfTx.Receiver ∧ selfTx.Value = 1 ∧
    selfSt.data (AccountKey selfTx.Sender selfTx.Token) = some 5 ∧
    (Process selfTx selfSt).map
      (fun r => (r.receipt.TxStatus, r.store.data (AccountKey selfTx.Sender selfTx.Token))) =
      some (TxReceiptStatus.Confirmed, some 6) := by
  decide

/-- C10: the account-key encoding `token ++ sender` is not injective: the
pairs (address `C`, token `AB`) and (address `BC`, token `A`) are distinct
but map to the same ledger key, so every read through that key (and every
write) aliases the two accounts to one balance entry. -/
theorem C10_account_key_not_injective :
    AccountKey "C" "AB" = AccountKey "BC" "A" ∧
    (("C", "AB") : String × String) ≠ ("BC", "A") ∧
    ∀ st : RwTx, getOne st (AccountKey "C" "AB") = getOne st (AccountKey "BC" "A") :=
  ⟨by decide, by decide, fun st => congrArg (getOne st) (by decide)⟩

/-- C9: when a transaction's `TxHash` (after stripping an optional `0x`) is
not valid hexadecimal, hash computation fails (the Go code panics, modelled
as `none`) — no zero hash is substituted — and `Process` on that
transaction aborts for every ledger view. -/
theorem C9_malformed_hash_fails (e : Tx)
    (h : validHex (trimPrefix0x e.TxHash.data) = false) :
    txHashBytes e = none ∧ ∀ st : RwTx, Process e st = none := by
  have hh : txHashBytes e = none := by
    simp [txHashBytes, hexDecode_eq_none h]
  refine ⟨hh, fun st => ?_⟩
  unfold Process
  simp only [hh, Option.map_none']
  repeat' split
  all_goals rfl

/-- Witness for C9 at the concrete transaction with hash `zz`. -/
theorem C9_malformed_hash_fails_witness :
    validHex (trimPrefix0x badHashTx.TxHash.data) = false ∧
    txHashBytes badHashTx = none ∧ Process badHashTx emptySt = none :=
  ⟨by decide, (C9_malformed_hash_fails badHashTx (by decide)).1,
    (C9_malformed_hash_fails badHashTx (by decide)).2 emptySt⟩

/-- C7 counterexample: the claim quantifies over every transfer transaction,
but a transaction whose `TxHash` is malformed hex makes `Process` panic
(`none`) instead of returning a nil fatal error — here even on a writable
ledger view where the transfer itself would succeed. -/
theorem C7_counterexample_panic : Process badHashTx selfSt = none := by
  rfl

/-- C7 amended: for every transfer whose `TxHash` decodes (the panic of
`Transaction.Hash` aside) and every ledger view, `Process` returns with a
nil fatal error: business-rule failures and storage read/write failures
surface only in the receipt. -/
theorem C7_no_fatal_error (e : Tx) (st : RwTx) (hb : List Nat)
    (hhash : txHashBytes e = some hb) :
    ∃ res, Process e st = some res ∧ res.fatalErr = none := by
  unfold Process
  simp only [hhash, Option.map_some']
  repeat' split
  all_goals exact ⟨_, rfl, rfl⟩

/-- Witness for C7 at a concrete funded transfer. -/
theorem C7_no_fatal_error_witness :
    ∃ res, Process plainTx selfSt = some res ∧ res.fatalErr = none :=
  C7_no_fatal_error plainTx selfSt ([170] ++ List.replicate 31 0) (by decide)

/-- C3: a transfer whose sender has no balance entry, or whose sender
balance is below the value, yields a `Failed` receipt with the message
"sender's balance not enough" and mutates no balance entry (for a
transaction with a decodable hash and a fault-free read of the sender key;
stored values are canonical 256-bit encodings). -/
theorem C3_insufficient_balance (e : Tx) (st : RwTx) (hb : List Nat)
    (hhash : txHashBytes e = some hb)
    (hread : st.getErr (AccountKey e.Sender e.Token) = none)
    (hcond : st.data (AccountKey e.Sender e.Token) = none ∨
      ∃ S, st.data (AccountKey e.Sender e.Token) = some S ∧ S < U256MOD ∧ S < e.Value) :
    ∃ res, Process e st = some res ∧
      res.receipt.TxStatus = TxReceiptStatus.Failed ∧
      res.receipt.ErrorMessage = "sender's balance not enough" ∧
      res.store = st := by
  unfold Process
  dsimp only
  rw [getOne_ok hread]
  rcases hcond with h | ⟨S, hS, hSM, hSv⟩
  · rw [h]
    simp only [bytesEmpty, Option.getD_none, beq_self_eq_true, if_true, hhash,
      Option.map_some']
    exact ⟨_, rfl, rfl, rfl, rfl⟩
  · rw [hS]
    dsimp only
    by_cases h0 : S = 0
    · subst h0
      simp only [bytesEmpty, Option.getD_some, beq_self_eq_true, if_true, hhash,
        Option.map_some']
      exact ⟨_, rfl, rfl, rfl, rfl⟩
    · have hbe : bytesEmpty (some S) = false := by simp [bytesEmpty, h0]
      rw [hbe]
      simp only [Bool.false_eq_true, if_false]
      have hset : setBytesOpt (some S) = S := by
        simp [setBytesOpt, Nat.mod_eq_of_lt hSM]
      rw [hset, if_pos hSv, hhash, Option.map_some']
      exact ⟨_, rfl, rfl, rfl, rfl⟩

/-- Witness for C3: a transfer from a sender with no entry. -/
theorem C3_insufficient_balance_witness :
    ∃ res, Process plainTx emptySt = some res ∧
      res.receipt.TxStatus = TxReceiptStatus.Failed ∧
      res.receipt.ErrorMessage = "sender's balance not enough" ∧
      res.store = emptySt :=
  C3_insufficient_balance plainTx emptySt ([170] ++ List.replicate 31 0)
    (by decide) (by decide) (Or.inl (by decide))

/-- C8 counterexample: a zero-value transfer whose sender entry exists with
balance zero (its stored byte string is the canonical empty encoding) is
rejected with a `Failed` receipt, because the code cannot tell an empty
stored value from a missing entry — refuting the claim's "including
zero". -/
theorem C8_counterexample_zero_balance_entry :
    zeroSt.data (AccountKey zeroTx.Sender zeroTx.Token) = some 0 ∧ zeroTx.Value = 0 ∧
    (Process zeroTx zeroSt).map (fun r => (r.receipt.TxStatus, r.receipt.ErrorMessage)) =
      some (TxReceiptStatus.Failed, "sender's balance not enough") := by
  decide

/-- The success path of `Process`: with a decodable hash, fault-free store
operations at the two keys, an existing (nonzero canonical) sender entry,
and sufficient balance, `Process` performs both writes and returns the
confirmed result. -/
theorem Process_success (e : Tx) (st : RwTx) (S : Nat) (hb : List Nat)
    (hhash : txHashBytes e = some hb)
    (hgs : st.getErr (AccountKey e.Sender e.Token) = none)
    (hgr : st.getErr (AccountKey e.Receiver e.Token) = none)
    (hps : st.putErr (AccountKey e.Sender e.Token) = none)
    (hpr : st.putErr (AccountKey e.Receiver e.Token) = none)
    (hS : st.data (AccountKey e.Sender e.Token) = some S)
    (hS0 : S ≠ 0) (hSM : S < U256MOD)
    (hval : e.Value ≤ S) :
    Process e st = some
      ⟨successReceipt e hb ((S + (U256MOD - e.Value % U256MOD)) % U256MOD)
          ((setBytesOpt (st.data (AccountKey e.Receiver e.Token)) + e.Value) % U256MOD),
        [], none,
        { st with data := fun k2 =>
            if k2 = AccountKey e.Receiver e.Token then
              some ((setBytesOpt (st.data (AccountKey e.Receiver e.Token)) + e.Value) % U256MOD)
            else if k2 = AccountKey e.Sender e.Token then
              some ((S + (U256MOD - e.Value % U256MOD)) % U256MOD)
            else st.data k2 }⟩ := by
  unfold Process
  dsimp only
  rw [getOne_ok hgs, hS]
  dsimp only
  have hbe : bytesEmpty (some S) = false := by simp [bytesEmpty, hS0]
  rw [hbe]
  simp only [Bool.false_eq_true, if_false]
  have hset : setBytesOpt (some S) = S := by simp [setBytesOpt, Nat.mod_eq_of_lt hSM]
  rw [hset, if_neg (not_lt.mpr hval), getOne_ok hgr]
  dsimp only
  rw [put_ok _ hps]
  dsimp only [put]
  rw [hpr]
  dsimp only
  rw [hhash]
  rfl

/-- C8 amended: a zero-value transfer succeeds with a `Confirmed` receipt
whenever the sender entry exists with a positive (nonzero-byte) balance,
the hash decodes, and the store is fault-free at the two keys. -/
theorem C8_zero_value_transfer (e : Tx) (st : RwTx) (S : Nat) (hb : List Nat)
    (hhash : txHashBytes e = some hb)
    (hv : e.Value = 0)
    (hgs : st.getErr (AccountKey e.Sender e.Token) = none)
    (hgr : st.getErr (AccountKey e.Receiver e.Token) = none)
    (hps : st.putErr (AccountKey e.Sender e.Token) = none)
    (hpr : st.putErr (AccountKey e.Receiver e.Token) = none)
    (hS : st.data (AccountKey e.Sender e.Token) = some S)
    (h0 : 0 < S) (hSM : S < U256MOD) :
    ∃ res, Process e st = some res ∧ res.receipt.TxStatus = TxReceiptStatus.Confirmed := by
  refine ⟨_, Process_success e st S hb hhash hgs hgr hps hpr hS
    (Nat.pos_iff_ne_zero.mp h0) hSM (hv ▸ Nat.zero_le S), rfl⟩

/-- Witness for C8 at a concrete zero-value transfer from a funded sender. -/
theorem C8_zero_value_transfer_witness :
    ∃ res, Process { plainTx with Value := 0 } selfSt = some res ∧
      res.receipt.TxStatus = TxReceiptStatus.Confirmed :=
  C8_zero_value_transfer { plainTx with Value := 0 } selfSt 5 ([170] ++ List.replicate 31 0)
    (by decide) rfl (by decide) (by decide) (by decide) (by decide) (by decide)
    (by decide) (by decide)

/-- C2 counterexample: at the self-transfer input (sender = receiver,
old balance 5, value 1) the post-state balance at the sender's key is 6,
so `newSender + value = oldSender` fails (6 + 1 ≠ 5): the claim's
quantification includes self-transfers, where the two equations cannot
both hold and the code nets a credit. -/
theorem C2_counterexample_self_transfer :
    selfSt.data (AccountKey selfTx.Sender selfTx.Token) = some 5 ∧ selfTx.Value = 1 ∧
    (Process selfTx selfSt).map
      (fun r => r.store.data (AccountKey selfTx.Sender selfTx.Token)) = some (some 6) ∧
    (6 : Nat) + 1 ≠ 5 := by
  decide

/-- C2 amended: for every transfer with distinct sender and receiver, a
decodable hash, fault-free store operations at the two keys, an existing
sender entry `S ≥ value` (canonical, nonzero), and no 256-bit overflow of
the receiver balance, the post-state satisfies `newSender + value =
oldSender` and `newReceiver = oldReceiver + value`, and the token total
over the two accounts is conserved. -/
theorem C2_transfer_conservation (e : Tx) (st : RwTx) (S R : Nat) (hb : List Nat)
    (hhash : txHashBytes e = some hb)
    (hsr : e.Sender ≠ e.Receiver)
    (hgs : st.getErr (AccountKey e.Sender e.Token) = none)
    (hgr : st.getErr (AccountKey e.Receiver e.Token) = none)
    (hps : st.putErr (AccountKey e.Sender e.Token) = none)
    (hpr : st.putErr (AccountKey e.Receiver e.Token) = none)
    (hS : st.data (AccountKey e.Sender e.Token) = some S)
    (hS0 : S ≠ 0) (hSM : S < U256MOD)
    (hR : (st.data (AccountKey e.Receiver e.Token)).getD 0 = R)
    (hRM : R + e.Value < U256MOD)
    (hval : e.Value ≤ S) :
    ∃ res, Process e st = some res ∧
      res.receipt.TxStatus = TxReceiptStatus.Confirmed ∧
      res.store.data (AccountKey e.Sender e.Token) = some (S - e.Value) ∧
      res.store.data (AccountKey e.Receiver e.Token) = some (R + e.Value) ∧
      (S - e.Value) + e.Value = S ∧
      (S - e.Value) + (R + e.Value) = S + R := by
  have hvM : e.Value < U256MOD := lt_of_le_of_lt hval hSM
  have hsub : (S + (U256MOD - e.Value % U256MOD)) % U256MOD = S - e.Value := by
    rw [Nat.mod_eq_of_lt hvM]
    have h1 : S + (U256MOD - e.Value) = U256MOD + (S - e.Value) := by omega
    rw [h1, Nat.add_mod_left, Nat.mod_eq_of_lt (by omega)]
  have hrec : (setBytesOpt (st.data (AccountKey e.Receiver e.Token)) + e.Value) % U256MOD =
      R + e.Value := by
    have h2 : setBytesOpt (st.data (AccountKey e.Receiver e.Token)) = R := by
      rw [setBytesOpt, hR, Nat.mod_eq_of_lt (by omega)]
    rw [h2, Nat.mod_eq_of_lt hRM]
  have hkey : AccountKey e.Sender e.Token ≠ AccountKey e.Receiver e.Token :=
    fun hk => hsr (accountKey_inj hk)
  refine ⟨_, Process_success e st S hb hhash hgs hgr hps hpr hS hS0 hSM hval,
    rfl, ?_, ?_, by omega, by omega⟩
  · show (if AccountKey e.Sender e.Token = AccountKey e.Receiver e.Token then _
      else if AccountKey e.Sender e.Token = AccountKey e.Sender e.Token then _
      else st.data (AccountKey e.Sender e.Token)) = some (S - e.Value)
    rw [if_neg hkey, if_pos rfl, hsub]
  · show (if AccountKey e.Receiver e.Token = AccountKey e.Receiver e.Token then _
      else _) = some (R + e.Value)
    rw [if_pos rfl, hrec]

/-- Witness for C2 at a concrete transfer: alice sends bob 3 USDT from a
balance of 5, bob starting absent (zero). -/
theorem C2_transfer_conservation_witness :
    ∃ res, Process plainTx selfSt = some res ∧
      res.receipt.TxStatus = TxReceiptStatus.Confirmed ∧
      res.store.data (AccountKey plainTx.Sender plainTx.Token) = some (5 - plainTx.Value) ∧
      res.store.data (AccountKey plainTx.Receiver plainTx.Token) = some (0 + plainTx.Value) ∧
      (5 - plainTx.Value) + plainTx.Value = 5 ∧
      (5 - plainTx.Value) + (0 + plainTx.Value) = 5 + 0 :=
  C2_transfer_conservation plainTx selfSt 5 0 ([170] ++ List.replicate 31 0)
    (by decide) (by decide) (by decide) (by decide) (by decide) (by decide)
    (by decide) (by decide) (by decide) (by decide) (by decide) (by decide)

/-- C4 counterexample: with a valid deposit log whose account-key read
fails at the storage layer, `ProcessBlock` (with successful block and
receipt fetches) still returns success with no outbound transactions and
an unchanged store: the storage error is logged and the log skipped, not
propagated as a fatal error. -/
theorem C4_counterexample_storage_error_not_fatal :
    errSt.getErr (AccountKey depUserHex "USDT") = some "disk read failure" ∧
    ProcessBlock (.ok ()) (.ok [⟨[depLog]⟩]) errSt = some (.ok ([], errSt)) := by
  exact ⟨rfl, rfl⟩

/-- C4 amended: a ledger-store read or write error while crediting a
deposit makes the ingestion log the error and skip that log — the deposit
is not credited and the store is left unchanged — rather than propagate a
fatal error (only block/receipt fetch failures are propagated from
`ProcessBlock`). -/
theorem C4_deposit_storage_error_skipped (st : RwTx) (l : EthLog) (token : String)
    (amount : Nat) (emsg : String)
    (haddr : l.address = exampleContractAddrBytes)
    (htop : 2 ≤ l.topics.length)
    (hsig : l.topics.headD "" = DepositEventSignature)
    (hdec : l.depositDecode = some (token, amount))
    (hamt : amount < U256MOD)
    (herr : st.getErr (AccountKey l.userHex token) = some emsg ∨
      (st.getErr (AccountKey l.userHex token) = none ∧
        st.putErr (AccountKey l.userHex token) = some emsg)) :
    processLog st l = some (st, []) := by
  unfold processLog
  rw [if_pos ⟨haddr, htop⟩, hsig, if_pos rfl, hdec]
  dsimp only
  rw [if_neg (not_le.mpr hamt)]
  rcases herr with h | ⟨hg, hp⟩
  · dsimp only [getOne]
    rw [h]
  · rw [getOne_ok hg]
    dsimp only [put]
    rw [hp]

/-- Witness for C4 at the concrete deposit log over the faulty store. -/
theorem C4_deposit_storage_error_skipped_witness :
    processLog errSt depLog = some (errSt, []) :=
  C4_deposit_storage_error_skipped errSt depLog "USDT" 500 "disk read failure"
    rfl (by decide) rfl rfl (by decide) (Or.inl (by decide))

/-- C5 counterexample: crediting a deposit of 1 onto a stored balance of
`2 ^ 256 - 1` wraps the uint256 addition around to 0, so the stored
balance does not increase by the amount. -/
theorem C5_counterexample_overflow :
    maxSt.data (AccountKey depUserHex "USDT") = some (U256MOD - 1) ∧
    depLog1.depositDecode = some ("USDT", 1) ∧
    (processLog maxSt depLog1).map (fun r => r.1.data (AccountKey depUserHex "USDT")) =
      some (some 0) := by
  exact ⟨by decide, by decide, by decide⟩

/-- C5 amended: for a log from the monitored contract with the deposit
signature, at least two topics and fault-free store operations at the
account key, when the decoded `(token, amount)` fits in 256 bits and the
credited sum does not overflow 256 bits, ingestion increases the stored
balance of `(token, topic-1 user)` by exactly the amount (a missing prior
entry counting as zero) and changes no other key; a log whose payload
fails to decode leaves every balance unchanged. -/
theorem C5_deposit_credit (st : RwTx) (l : EthLog) (token : String) (amount : Nat)
    (haddr : l.address = exampleContractAddrBytes)
    (htop : 2 ≤ l.topics.length)
    (hsig : l.topics.headD "" = DepositEventSignature) :
    (l.depositDecode = some (token, amount) →
      st.getErr (AccountKey l.userHex token) = none →
      st.putErr (AccountKey l.userHex token) = none →
      (st.data (AccountKey l.userHex token)).getD 0 + amount < U256MOD →
      ∃ st2, processLog st l = some (st2, []) ∧
        st2.data (AccountKey l.userHex token) =
          some ((st.data (AccountKey l.userHex token)).getD 0 + amount) ∧
        ∀ k, k ≠ AccountKey l.userHex token → st2.data k = st.data k) ∧
    (l.depositDecode = none → processLog st l = some (st, [])) := by
  constructor
  · intro hdec hg hp hlt
    have hamt : amount < U256MOD := by omega
    unfold processLog
    rw [if_pos ⟨haddr, htop⟩, hsig, if_pos rfl, hdec]
    dsimp only
    rw [if_neg (not_le.mpr hamt), getOne_ok hg]
    dsimp only
    rw [put_ok _ hp]
    have hnb : (setBytesOpt (st.data (AccountKey l.userHex token)) + amount) % U256MOD =
        (st.data (AccountKey l.userHex token)).getD 0 + amount := by
      have h0 : (st.data (AccountKey l.userHex token)).getD 0 % U256MOD =
          (st.data (AccountKey l.userHex token)).getD 0 :=
        Nat.mod_eq_of_lt (by omega)
      rw [setBytesOpt, h0, Nat.mod_eq_of_lt hlt]
    refine ⟨_, rfl, ?_, fun k hk => if_neg hk⟩
    show (if AccountKey l.userHex token = AccountKey l.userHex token then _ else _) = _
    rw [if_pos rfl, hnb]
  · intro h
    unfold processLog
    rw [if_pos ⟨haddr, htop⟩, hsig, if_pos rfl, h]

/-- Witness for C5 at the concrete deposit log: 500 USDT for a previously
absent account. -/
theorem C5_deposit_credit_witness :
    ∃ st2, processLog emptySt depLog = some (st2, []) ∧
      st2.data (AccountKey depUserHex "USDT") =
        some ((emptySt.data (AccountKey depUserHex "USDT")).getD 0 + 500) := by
  obtain ⟨st2, h1, h2, _⟩ :=
    (C5_deposit_credit emptySt depLog "USDT" 500 rfl (by decide) rfl).1
      rfl (by decide) (by decide) (by decide)
  exact ⟨st2, h1, h2⟩

/-- C6: a log from the monitored contract with the swap signature decoding
to `tokenIn = "ETH"`, `tokenOut = "USDT"`, `amountIn = 2` makes ingestion
emit exactly one outbound transaction to the fixed destination chain whose
payload carries, in its 32-byte big-endian amount field, `8400 = 2 × 4200`
(truncated to an integer), and no ledger balance is mutated (the store is
returned untouched). -/
theorem C6_swap_emission (st : RwTx) (l : EthLog)
    (haddr : l.address = exampleContractAddrBytes)
    (htop : 2 ≤ l.topics.length)
    (hsig : l.topics.headD "" = SwapEventSignature)
    (hdec : l.swapDecode = some ("ETH", "USDT", 2))
    (hlen : l.userBytes.length = 20) :
    processLog st l = some (st,
      [⟨EthereumSepoliaChainID,
        l.userBytes ++ (List.replicate 30 0 ++ [32, 208]) ++ strBytes "USDT"⟩]) ∧
    calculateSwapOutput "ETH" "USDT" 2 = 8400 ∧
    bytesToNat (List.replicate 30 0 ++ [32, 208]) = 8400 := by
  refine ⟨?_, by decide, by decide⟩
  unfold processLog
  rw [if_pos ⟨haddr, htop⟩, hsig, if_neg (by decide), if_pos rfl, hdec]
  dsimp only
  have hout : calculateSwapOutput "ETH" "USDT" ((2 : Nat) : Int) = 8400 := by decide
  rw [hout]
  have hpay : createTokenMintPayload l.userBytes 8400 "USDT" =
      some (l.userBytes ++ (List.replicate 30 0 ++ [32, 208]) ++ strBytes "USDT") := by
    unfold createTokenMintPayload
    dsimp only
    rw [show natToBytesBE (Int.natAbs 8400) = [32, 208] from by decide,
      if_pos (by decide), List.take_left' hlen]
    rfl
  rw [hpay]

/-- Witness for C6 at the concrete swap log. -/
theorem C6_swap_emission_witness :
    processLog emptySt swapLog = some (emptySt,
      [⟨EthereumSepoliaChainID,
        swapLog.userBytes ++ (List.replicate 30 0 ++ [32, 208]) ++ strBytes "USDT"⟩]) ∧
    calculateSwapOutput "ETH" "USDT" 2 = 8400 ∧
    bytesToNat (List.replicate 30 0 ++ [32, 208]) = 8400 :=
  C6_swap_emission emptySt swapLog rfl (by decide) rfl rfl (by decide)

end Appchain
